import Mathlib

/-!
Verification of the OCSP module of rust-openssl (`src/openssl/src/ocsp.rs`).

The Rust module is a thin wrapper over OpenSSL's OCSP primitives. We give a
shallow embedding: the wrapper functions are translated directly from the Rust
source, while the OpenSSL routines they delegate to (which live outside this
repository) are modelled from the specification's contracts, each such
definition carrying a `Modelled from the spec:` doc comment. Machine integers
(`c_int`, `c_long`) are modelled as `Int`; ASN.1 GeneralizedTime values as
`Int` seconds; DER byte strings as `List Nat`.
-/

namespace Ocsp

/-- The error taxonomy of the specification (§7); the Rust code returns an
opaque `ErrorStack`, which the spec refines into these kinds. -/
inductive SpecError where
  | EncodingError
  | CryptoError
  | StatusError
  | VerificationError
  | TimeValidityError
deriving DecidableEq, Repr

/-- Decidable equality of fallible results, so that concrete runs of the
embedded operations can be checked by evaluation. -/
instance instDecEqExcept {ε α : Type} [DecidableEq ε] [DecidableEq α] :
    DecidableEq (Except ε α) := fun x y =>
  match x, y with
  | .ok a, .ok b =>
    if h : a = b then isTrue (by rw [h]) else isFalse (by simp [h])
  | .error a, .error b =>
    if h : a = b then isTrue (by rw [h]) else isFalse (by simp [h])
  | .ok _, .error _ => isFalse (by simp)
  | .error _, .ok _ => isFalse (by simp)

/-- Model of the C `c_int` type. -/
abbrev c_int := Int

/-- ffi constant `OCSP_RESPONSE_STATUS_SUCCESSFUL`. -/
def OCSP_RESPONSE_STATUS_SUCCESSFUL : c_int := 0

/-- ffi constant `OCSP_RESPONSE_STATUS_MALFORMEDREQUEST`. -/
def OCSP_RESPONSE_STATUS_MALFORMEDREQUEST : c_int := 1

/-- ffi constant `OCSP_RESPONSE_STATUS_INTERNALERROR`. -/
def OCSP_RESPONSE_STATUS_INTERNALERROR : c_int := 2

/-- ffi constant `OCSP_RESPONSE_STATUS_TRYLATER`. -/
def OCSP_RESPONSE_STATUS_TRYLATER : c_int := 3

/-- ffi constant `OCSP_RESPONSE_STATUS_SIGREQUIRED`. -/
def OCSP_RESPONSE_STATUS_SIGREQUIRED : c_int := 5

/-- ffi constant `OCSP_RESPONSE_STATUS_UNAUTHORIZED`. -/
def OCSP_RESPONSE_STATUS_UNAUTHORIZED : c_int := 6

/-- ffi constant `V_OCSP_CERTSTATUS_GOOD`. -/
def V_OCSP_CERTSTATUS_GOOD : c_int := 0

/-- ffi constant `V_OCSP_CERTSTATUS_REVOKED`. -/
def V_OCSP_CERTSTATUS_REVOKED : c_int := 1

/-- ffi constant `V_OCSP_CERTSTATUS_UNKNOWN`. -/
def V_OCSP_CERTSTATUS_UNKNOWN : c_int := 2

/-- ffi constant `OCSP_REVOKED_STATUS_NOSTATUS`. -/
def OCSP_REVOKED_STATUS_NOSTATUS : c_int := -1

/-- ffi constant `OCSP_REVOKED_STATUS_UNSPECIFIED`. -/
def OCSP_REVOKED_STATUS_UNSPECIFIED : c_int := 0

/-- ffi constant `OCSP_REVOKED_STATUS_KEYCOMPROMISE`. -/
def OCSP_REVOKED_STATUS_KEYCOMPROMISE : c_int := 1

/-- ffi constant `OCSP_REVOKED_STATUS_CACOMPROMISE`. -/
def OCSP_REVOKED_STATUS_CACOMPROMISE : c_int := 2

/-- ffi constant `OCSP_REVOKED_STATUS_AFFILIATIONCHANGED`. -/
def OCSP_REVOKED_STATUS_AFFILIATIONCHANGED : c_int := 3

/-- ffi constant `OCSP_REVOKED_STATUS_SUPERSEDED`. -/
def OCSP_REVOKED_STATUS_SUPERSEDED : c_int := 4

/-- ffi constant `OCSP_REVOKED_STATUS_CESSATIONOFOPERATION`. -/
def OCSP_REVOKED_STATUS_CESSATIONOFOPERATION : c_int := 5

/-- ffi constant `OCSP_REVOKED_STATUS_CERTIFICATEHOLD`. -/
def OCSP_REVOKED_STATUS_CERTIFICATEHOLD : c_int := 6

/-- ffi constant `OCSP_REVOKED_STATUS_REMOVEFROMCRL`. -/
def OCSP_REVOKED_STATUS_REMOVEFROMCRL : c_int := 8

/-- Rust `pub struct OcspResponseStatus(c_int)` (ocsp.rs line 68). -/
structure OcspResponseStatus where
  raw : c_int
deriving DecidableEq, Repr

/-- Rust `OcspResponseStatus::from_raw` (ocsp.rs lines 71-73). -/
def OcspResponseStatus.from_raw (raw : c_int) : OcspResponseStatus := ⟨raw⟩

/-- Rust `OcspResponseStatus::as_raw` (ocsp.rs lines 75-77). -/
def OcspResponseStatus.as_raw (s : OcspResponseStatus) : c_int := s.raw

/-- Rust `pub struct OcspCertStatus(c_int)` (ocsp.rs line 81). -/
structure OcspCertStatus where
  raw : c_int
deriving DecidableEq, Repr

/-- Rust `OcspCertStatus::from_raw` (ocsp.rs lines 84-86). -/
def OcspCertStatus.from_raw (raw : c_int) : OcspCertStatus := ⟨raw⟩

/-- Rust `OcspCertStatus::as_raw` (ocsp.rs lines 88-90). -/
def OcspCertStatus.as_raw (s : OcspCertStatus) : c_int := s.raw

/-- Rust `pub struct OcspRevokedStatus(c_int)` (ocsp.rs line 94). -/
structure OcspRevokedStatus where
  raw : c_int
deriving DecidableEq, Repr

/-- Rust `OcspRevokedStatus::from_raw` (ocsp.rs lines 97-99). -/
def OcspRevokedStatus.from_raw (raw : c_int) : OcspRevokedStatus := ⟨raw⟩

/-- Rust `OcspRevokedStatus::as_raw` (ocsp.rs lines 101-103). -/
def OcspRevokedStatus.as_raw (s : OcspRevokedStatus) : c_int := s.raw

/-- Rust constant `RESPONSE_STATUS_SUCCESSFUL` (ocsp.rs lines 31-32). -/
def RESPONSE_STATUS_SUCCESSFUL : OcspResponseStatus :=
  ⟨OCSP_RESPONSE_STATUS_SUCCESSFUL⟩

/-- Rust constant `RESPONSE_STATUS_TRY_LATER` (ocsp.rs lines 37-38). -/
def RESPONSE_STATUS_TRY_LATER : OcspResponseStatus :=
  ⟨OCSP_RESPONSE_STATUS_TRYLATER⟩

/-- Rust constant `CERT_STATUS_GOOD` (ocsp.rs line 44). -/
def CERT_STATUS_GOOD : OcspCertStatus := ⟨V_OCSP_CERTSTATUS_GOOD⟩

/-- Rust constant `CERT_STATUS_REVOKED` (ocsp.rs line 45). -/
def CERT_STATUS_REVOKED : OcspCertStatus := ⟨V_OCSP_CERTSTATUS_REVOKED⟩

/-- Rust constant `CERT_STATUS_UNKNOWN` (ocsp.rs line 46). -/
def CERT_STATUS_UNKNOWN : OcspCertStatus := ⟨V_OCSP_CERTSTATUS_UNKNOWN⟩

/-- Rust constant `REVOKED_STATUS_NO_STATUS` (ocsp.rs lines 48-49). -/
def REVOKED_STATUS_NO_STATUS : OcspRevokedStatus := ⟨OCSP_REVOKED_STATUS_NOSTATUS⟩

/-- `OCSP_CERTID`: a certificate identifier (§3 of the spec): digest
algorithm, hashes of the issuer name and key, and the subject serial number. -/
structure OcspCertId where
  hashAlg : Nat
  issuerNameHash : List Nat
  issuerKeyHash : List Nat
  serialNumber : List Nat
deriving DecidableEq, Repr

/-- The ASN.1 `CertStatus` CHOICE carried by an `OCSP_SINGLERESP` entry:
good, revoked (with revocation time and revocation-reason code), or unknown. -/
inductive SingleStatus where
  | good
  | revoked (revocationTime : Int) (revocationReason : c_int)
  | unknown
deriving DecidableEq, Repr

/-- One per-certificate status entry (`OCSP_SINGLERESP`) of a basic
response: its certificate identifier, status, and validity window. -/
structure OcspSingleResp where
  certId : OcspCertId
  certStatus : SingleStatus
  thisUpdate : Int
  nextUpdate : Int
deriving DecidableEq, Repr

/-- An X.509 certificate as consumed here (§6 of the spec): an identity, the
signing public key, and the root its chain leads to. -/
structure X509 where
  id : Nat
  key : Nat
  issuerRoot : Nat
deriving DecidableEq, Repr

/-- `OCSP_BASICRESP`: the signed body (spec §3): per-certificate status
entries, responder identity, signed payload bytes, signature, and the
certificates embedded in the response. -/
structure OcspBasicResponse where
  entries : List OcspSingleResp
  respId : Nat
  signedBody : List Nat
  signature : List Nat
  certs : List X509
deriving DecidableEq, Repr

/-- Rust `pub struct Status<'a>` (ocsp.rs lines 106-117); the borrowed
GeneralizedTime references are modelled as `Int` timestamps. -/
structure Status where
  status : OcspCertStatus
  reason : OcspRevokedStatus
  revocation_time : Option Int
  this_update : Int
  next_update : Int
deriving DecidableEq, Repr

/-- Rust `bitflags! Flag` (ocsp.rs lines 15-29): independent, combinable
trust-behavior flags (spec §3, TrustFlags). -/
structure Flag where
  no_certs : Bool
  no_intern : Bool
  no_chain : Bool
  no_verify : Bool
  no_explicit : Bool
  no_ca_sign : Bool
  no_delegated : Bool
  no_checks : Bool
  trust_other : Bool
  respid_key : Bool
  no_time : Bool
deriving DecidableEq, Repr

/-- Modelled from the spec: `OCSP_check_validity` (external OpenSSL routine
called at ocsp.rs line 129), per §4.6: valid iff
`this_update - nsec <= now`, `now <= next_update + nsec`, and, when a
non-negative maximum age is given (the wrapper passes `-1` for "none"),
`now - this_update <= maxsec`. -/
def OCSP_check_validity (now thisupd nextupd nsec maxsec : Int) : Bool :=
  decide (thisupd - nsec ≤ now) && decide (now ≤ nextupd + nsec) &&
    (decide (maxsec < 0) || decide (now - thisupd ≤ maxsec))

/-- Rust `Status::check_validity` (ocsp.rs lines 127-135): delegates to
`OCSP_check_validity` with `nsec as c_long` and
`maxsec.map(|n| n as c_long).unwrap_or(-1)`. The current wall-clock time,
read inside the C routine, is the explicit `now` parameter (spec §6 requires
the time source to be injectable). -/
def Status.check_validity (now : Int) (s : Status) (nsec : Nat)
    (maxsec : Option Nat) : Except SpecError Unit :=
  if OCSP_check_validity now s.this_update s.next_update (nsec : Int)
      ((maxsec.map (fun n => (n : Int))).getD (-1)) then
    .ok ()
  else
    .error SpecError.TimeValidityError

/-- Modelled from the spec: `OCSP_resp_find_status` (external OpenSSL routine
called at ocsp.rs line 165), per §4.4: linear search of the entries for the
first whose embedded identifier equals `id` by value equality; on a match it
reports the entry's status code, revocation-reason code, optional revocation
time (present only for a revoked entry) and the thisUpdate/nextUpdate window.
For a good or unknown entry the reason and revocation-time out-parameters are
left at the wrapper's initial values (`OCSP_REVOKED_STATUS_NOSTATUS`, null). -/
def OCSP_resp_find_status (br : OcspBasicResponse) (id : OcspCertId) :
    Option (c_int × c_int × Option Int × Int × Int) :=
  match br.entries.find? (fun e => decide (e.certId = id)) with
  | none => none
  | some e =>
    match e.certStatus with
    | SingleStatus.good =>
        some (V_OCSP_CERTSTATUS_GOOD, OCSP_REVOKED_STATUS_NOSTATUS, none,
          e.thisUpdate, e.nextUpdate)
    | SingleStatus.revoked t r =>
        some (V_OCSP_CERTSTATUS_REVOKED, r, some t, e.thisUpdate, e.nextUpdate)
    | SingleStatus.unknown =>
        some (V_OCSP_CERTSTATUS_UNKNOWN, OCSP_REVOKED_STATUS_NOSTATUS, none,
          e.thisUpdate, e.nextUpdate)

/-- Rust `OcspBasicResponseRef::find_status` (ocsp.rs lines 157-189). Note
the faithful translation of line 180: the returned record's `reason` field is
built as `OcspRevokedStatus(status)` from the status code, while the `reason`
value collected from the C call is dropped. -/
def OcspBasicResponseRef.find_status (br : OcspBasicResponse)
    (id : OcspCertId) : Option Status :=
  match OCSP_resp_find_status br id with
  | some (status, _reason, revocation_time, this_update, next_update) =>
      some { status := ⟨status⟩
             reason := ⟨status⟩
             revocation_time := revocation_time
             this_update := this_update
             next_update := next_update }
  | none => none

/-- The spec's own description of the lookup (§4.4): recurse down the entry
list and return the first entry whose identifier equals `id`, `none` if no
entry matches. Stated separately from the source-derived definition so the
two can be compared. -/
def specFirstMatch (entries : List OcspSingleResp) (id : OcspCertId) :
    Option OcspSingleResp :=
  match entries with
  | [] => none
  | e :: rest => if e.certId = id then some e else specFirstMatch rest id

/-- The status record the wrapper builds from a matched entry (with the
source's field population, including line 180's reason-from-status copy). -/
def statusOfEntry (e : OcspSingleResp) : Status :=
  match e.certStatus with
  | SingleStatus.good =>
      { status := ⟨V_OCSP_CERTSTATUS_GOOD⟩, reason := ⟨V_OCSP_CERTSTATUS_GOOD⟩
        revocation_time := none
        this_update := e.thisUpdate, next_update := e.nextUpdate }
  | SingleStatus.revoked t _ =>
      { status := ⟨V_OCSP_CERTSTATUS_REVOKED⟩
        reason := ⟨V_OCSP_CERTSTATUS_REVOKED⟩
        revocation_time := some t
        this_update := e.thisUpdate, next_update := e.nextUpdate }
  | SingleStatus.unknown =>
      { status := ⟨V_OCSP_CERTSTATUS_UNKNOWN⟩
        reason := ⟨V_OCSP_CERTSTATUS_UNKNOWN⟩
        revocation_time := none
        this_update := e.thisUpdate, next_update := e.nextUpdate }

/-- Modelled from the spec: the external signature primitive (§6) as a
deterministic injective scheme — the signature a key produces over a message
prepends the key to the message, so any change to the signed bytes changes
the signature. -/
def sign (key : Nat) (msg : List Nat) : List Nat := key :: msg

/-- Modelled from the spec: locating the signer certificate for
`OCSP_basic_verify` (§4.5) — searched for in `certs` first, then among the
certificates embedded in the response unless `FLAG_NO_INTERN` suppresses
that search. -/
def findSigner (br : OcspBasicResponse) (certs : List X509) (flags : Flag) :
    Option X509 :=
  match certs.find? (fun c => decide (c.id = br.respId)) with
  | some c => some c
  | none =>
    if flags.no_intern then none
    else br.certs.find? (fun c => decide (c.id = br.respId))

/-- Modelled from the spec: `OCSP_basic_verify` (external OpenSSL routine
called at ocsp.rs line 151), per §4.5: succeeds only if a signer certificate
is located (in `certs` or, subject to flags, embedded in the response), the
response's signature authenticates the signed body under that signer's key,
and, unless `FLAG_NO_VERIFY` suppresses chain verification, the signer's
chain leads to a root trusted by `store`. -/
def OCSP_basic_verify (br : OcspBasicResponse) (certs : List X509)
    (store : List Nat) (flags : Flag) : Bool :=
  match findSigner br certs flags with
  | none => false
  | some signer =>
    decide (br.signature = sign signer.key br.signedBody) &&
      (flags.no_verify || store.contains signer.issuerRoot)

/-- Rust `OcspBasicResponseRef::verify` (ocsp.rs lines 145-154): delegates to
`OCSP_basic_verify`; a zero return becomes an error (`cvt`). -/
def OcspBasicResponseRef.verify (br : OcspBasicResponse) (certs : List X509)
    (store : List Nat) (flags : Flag) : Except SpecError Unit :=
  if OCSP_basic_verify br certs store flags then .ok ()
  else .error SpecError.VerificationError

/-- `OCSP_RESPONSE`: the response envelope (spec §3): a response-status code
plus an optional opaque signed body. -/
structure OcspResponse where
  status : OcspResponseStatus
  body : Option OcspBasicResponse
deriving DecidableEq, Repr

/-- Rust `OcspResponse::create` (ocsp.rs lines 213-223): builds the envelope
from the status and optional body; per §4.3 the status/body coupling is NOT
checked here — a body with a non-successful status is permitted. -/
def OcspResponse.create (status : OcspResponseStatus)
    (body : Option OcspBasicResponse) : OcspResponse :=
  { status := status, body := body }

/-- Rust `OcspResponseRef::status` (ocsp.rs lines 232-236). -/
def OcspResponseRef.status (r : OcspResponse) : OcspResponseStatus := r.status

/-- Modelled from the spec: `OCSP_response_get1_basic` (external OpenSSL
routine called at ocsp.rs line 243), wrapped by `OcspResponseRef::basic`, per
§4.3: extracts an independently owned copy of the basic-response body;
fails with `StatusError` if the envelope status is not successful or no body
is present — the only validation point of the status/body coupling. -/
def OcspResponseRef.basic (r : OcspResponse) :
    Except SpecError OcspBasicResponse :=
  if r.status = RESPONSE_STATUS_SUCCESSFUL then
    match r.body with
    | some b => .ok b
    | none => .error SpecError.StatusError
  else .error SpecError.StatusError

/-- `OCSP_ONEREQ`: one single-request entry of a request, wrapping a
certificate identifier (extensions are out of scope, spec §3). -/
structure OcspOneReq where
  certId : OcspCertId
deriving DecidableEq, Repr

/-- `OCSP_REQUEST`: an ordered sequence of single-request entries. -/
structure OcspRequest where
  entries : List OcspOneReq
deriving DecidableEq, Repr

/-- Rust `OcspRequest::new` (ocsp.rs lines 251-257): an empty request. -/
def OcspRequest.new : OcspRequest := ⟨[]⟩

/-- Modelled from the spec: `OCSP_request_add0_id` (external OpenSSL routine
called at ocsp.rs line 267), per §4.2: appends a new single-request entry
wrapping the identifier at the end of the request and yields the new slot
(represented by its index). -/
def OCSP_request_add0_id (req : OcspRequest) (id : OcspCertId) :
    OcspRequest × Nat :=
  (⟨req.entries ++ [⟨id⟩]⟩, req.entries.length)

/-- Rust `OcspRequestRef::add_id` (ocsp.rs lines 265-271): consumes the
identifier (the Rust signature takes it by value and `mem::forget`s it after
the `add0` transfer) and returns the updated request together with a
reference to the newly created single-request slot. -/
def OcspRequestRef.add_id (req : OcspRequest) (id : OcspCertId) :
    OcspRequest × Nat :=
  OCSP_request_add0_id req id

/-- Modelled from the spec: the external DER codec (§6) — encoding of one
number as wire bytes (a wire byte is modelled as a `Nat`). -/
def encNat (n : Nat) : List Nat := [n]

/-- Decoding of one number: the head byte, with the remainder returned. -/
def decNat : List Nat → Option (Nat × List Nat)
  | [] => none
  | n :: rest => some (n, rest)

/-- Encoding of a signed value: a sign byte then the magnitude. -/
def encInt (i : Int) : List Nat :=
  if i < 0 then [1, (-i).toNat] else [0, i.toNat]

/-- Decoding of a signed value. -/
def decInt : List Nat → Option (Int × List Nat)
  | tag :: m :: rest =>
    if tag = 0 then some ((m : Int), rest)
    else if tag = 1 then some (-(m : Int), rest)
    else none
  | _ => none

/-- Encoding of a sequence: a count byte then the encoded elements. -/
def encList (enc : α → List Nat) (xs : List α) : List Nat :=
  xs.length :: (xs.map enc).flatten

/-- Decoding of exactly `n` consecutive elements. -/
def decListN (dec : List Nat → Option (α × List Nat)) :
    Nat → List Nat → Option (List α × List Nat)
  | 0, bs => some ([], bs)
  | n + 1, bs =>
    match dec bs with
    | none => none
    | some (x, bs1) =>
      match decListN dec n bs1 with
      | none => none
      | some (xs, bs2) => some (x :: xs, bs2)

/-- Decoding of a counted sequence. -/
def decList (dec : List Nat → Option (α × List Nat)) (bs : List Nat) :
    Option (List α × List Nat) :=
  match bs with
  | [] => none
  | n :: rest => decListN dec n rest

/-- Encoding of an optional value: a presence byte then the value, if any. -/
def encOption (enc : α → List Nat) : Option α → List Nat
  | none => [0]
  | some x => 1 :: enc x

/-- Decoding of an optional value. -/
def decOption (dec : List Nat → Option (α × List Nat)) :
    List Nat → Option (Option α × List Nat)
  | tag :: rest =>
    if tag = 0 then some (none, rest)
    else if tag = 1 then
      match dec rest with
      | none => none
      | some (x, bs) => some (some x, bs)
    else none
  | [] => none

/-- Wire encoding of a certificate identifier. -/
def encCertId (c : OcspCertId) : List Nat :=
  encNat c.hashAlg ++ encList encNat c.issuerNameHash ++
    encList encNat c.issuerKeyHash ++ encList encNat c.serialNumber

/-- Wire decoding of a certificate identifier. -/
def decCertId (bs : List Nat) : Option (OcspCertId × List Nat) :=
  match decNat bs with
  | none => none
  | some (h, bs) =>
    match decList decNat bs with
    | none => none
    | some (inh, bs) =>
      match decList decNat bs with
      | none => none
      | some (ikh, bs) =>
        match decList decNat bs with
        | none => none
        | some (sn, bs) => some (⟨h, inh, ikh, sn⟩, bs)

/-- Wire encoding of an entry's certificate-status CHOICE. -/
def encSingleStatus : SingleStatus → List Nat
  | SingleStatus.good => [0]
  | SingleStatus.revoked t r => 1 :: (encInt t ++ encInt r)
  | SingleStatus.unknown => [2]

/-- Wire decoding of an entry's certificate-status CHOICE. -/
def decSingleStatus : List Nat → Option (SingleStatus × List Nat)
  | tag :: rest =>
    if tag = 0 then some (SingleStatus.good, rest)
    else if tag = 2 then some (SingleStatus.unknown, rest)
    else if tag = 1 then
      match decInt rest with
      | none => none
      | some (t, bs) =>
        match decInt bs with
        | none => none
        | some (r, bs) => some (SingleStatus.revoked t r, bs)
    else none
  | [] => none

/-- Wire encoding of a per-certificate status entry. -/
def encSingleResp (e : OcspSingleResp) : List Nat :=
  encCertId e.certId ++ encSingleStatus e.certStatus ++
    encInt e.thisUpdate ++ encInt e.nextUpdate

/-- Wire decoding of a per-certificate status entry. -/
def decSingleResp (bs : List Nat) : Option (OcspSingleResp × List Nat) :=
  match decCertId bs with
  | none => none
  | some (cid, bs) =>
    match decSingleStatus bs with
    | none => none
    | some (st, bs) =>
      match decInt bs with
      | none => none
      | some (tu, bs) =>
        match decInt bs with
        | none => none
        | some (nu, bs) => some (⟨cid, st, tu, nu⟩, bs)

/-- Wire encoding of a certificate. -/
def encX509 (c : X509) : List Nat :=
  encNat c.id ++ encNat c.key ++ encNat c.issuerRoot

/-- Wire decoding of a certificate. -/
def decX509 (bs : List Nat) : Option (X509 × List Nat) :=
  match decNat bs with
  | none => none
  | some (i, bs) =>
    match decNat bs with
    | none => none
    | some (k, bs) =>
      match decNat bs with
      | none => none
      | some (r, bs) => some (⟨i, k, r⟩, bs)

/-- Wire encoding of a basic response. -/
def encBasicResp (b : OcspBasicResponse) : List Nat :=
  encList encSingleResp b.entries ++ encNat b.respId ++
    encList encNat b.signedBody ++ encList encNat b.signature ++
    encList encX509 b.certs

/-- Wire decoding of a basic response. -/
def decBasicResp (bs : List Nat) : Option (OcspBasicResponse × List Nat) :=
  match decList decSingleResp bs with
  | none => none
  | some (es, bs) =>
    match decNat bs with
    | none => none
    | some (rid, bs) =>
      match decList decNat bs with
      | none => none
      | some (sb, bs) =>
        match decList decNat bs with
        | none => none
        | some (sg, bs) =>
          match decList decX509 bs with
          | none => none
          | some (cs, bs) => some (⟨es, rid, sb, sg, cs⟩, bs)

/-- Wire encoding of a single-request entry. -/
def encOneReq (e : OcspOneReq) : List Nat := encCertId e.certId

/-- Wire decoding of a single-request entry. -/
def decOneReq (bs : List Nat) : Option (OcspOneReq × List Nat) :=
  match decCertId bs with
  | none => none
  | some (cid, bs) => some (⟨cid⟩, bs)

/-- Rust `to_der!` on `OcspRequestRef` (ocsp.rs line 263), delegating to the
external codec (`i2d_OCSP_REQUEST`), modelled from the spec's codec
contract (§6). -/
def OcspRequestRef.to_der (r : OcspRequest) : List Nat :=
  encList encOneReq r.entries

/-- Rust `from_der!` on `OcspRequest` (ocsp.rs line 259), delegating to the
external codec (`d2i_OCSP_REQUEST`): malformed input is a distinct decode
error, never a partially populated value (spec §6). -/
def OcspRequest.from_der (bs : List Nat) : Except SpecError OcspRequest :=
  match decList decOneReq bs with
  | some (es, []) => .ok ⟨es⟩
  | _ => .error SpecError.EncodingError

/-- Rust `to_der!` on `OcspResponseRef` (ocsp.rs line 229), delegating to
the external codec (`i2d_OCSP_RESPONSE`). -/
def OcspResponseRef.to_der (r : OcspResponse) : List Nat :=
  encInt r.status.raw ++ encOption encBasicResp r.body

/-- Rust `from_der!` on `OcspResponse` (ocsp.rs line 225), delegating to the
external codec (`d2i_OCSP_RESPONSE`). -/
def OcspResponse.from_der (bs : List Nat) : Except SpecError OcspResponse :=
  match decInt bs with
  | some (st, rest) =>
    match decOption decBasicResp rest with
    | some (b, []) => .ok ⟨⟨st⟩, b⟩
    | _ => .error SpecError.EncodingError
  | none => .error SpecError.EncodingError

/-- A concrete certificate identifier for evaluating `find_status` on the
reason-field discrepancy. -/
def cidC1 : OcspCertId := ⟨1, [10], [11], [12]⟩

/-- A concrete basic response whose sole entry is revoked with
revocation-reason `SUPERSEDED` (code 4), distinct from its status code (1). -/
def brC1 : OcspBasicResponse :=
  ⟨[⟨cidC1, SingleStatus.revoked 700 OCSP_REVOKED_STATUS_SUPERSEDED, 0, 100⟩],
    0, [], [], []⟩

/-- A concrete certificate identifier for the revocation-time invariant. -/
def cidC5 : OcspCertId := ⟨2, [20], [21], [22]⟩

/-- A concrete basic response with one revoked entry. -/
def brC5 : OcspBasicResponse :=
  ⟨[⟨cidC5, SingleStatus.revoked 500 4, 0, 100⟩], 0, [], [], []⟩

/-- The status record `find_status` yields on `brC5`/`cidC5`. -/
def sC5 : Status := ⟨⟨1⟩, ⟨1⟩, some 500, 0, 100⟩

/-- A concrete signer certificate chaining to root 42. -/
def certC7 : X509 := ⟨1, 7, 42⟩

/-- A concrete basic response correctly signed by `certC7`. -/
def brC7 : OcspBasicResponse := ⟨[], 1, [9, 9], [7, 9, 9], []⟩

/-- The all-clear flag set: no suppression bits. -/
def flagsC7 : Flag :=
  ⟨false, false, false, false, false, false, false, false, false, false, false⟩

/-- A concrete status record whose `this_update` lies far in the past. -/
def sC9 : Status :=
  ⟨CERT_STATUS_GOOD, REVOKED_STATUS_NO_STATUS, none, -1000000000, 10⟩

/-! ## Theorems -/

/-- C10: for each of the three code types, `from_raw` is total on integer
codes (any `c_int`, protocol-listed or not), `as_raw` is its exact left
inverse, and equality of two values coincides with equality of their raw
codes. -/
theorem status_code_raw_roundtrip (c : c_int)
    (a b : OcspResponseStatus) (p q : OcspCertStatus)
    (u v : OcspRevokedStatus) :
    (OcspResponseStatus.from_raw c).as_raw = c ∧
    (OcspCertStatus.from_raw c).as_raw = c ∧
    (OcspRevokedStatus.from_raw c).as_raw = c ∧
    (a = b ↔ a.as_raw = b.as_raw) ∧
    (p = q ↔ p.as_raw = q.as_raw) ∧
    (u = v ↔ u.as_raw = v.as_raw) := by
  refine ⟨rfl, rfl, rfl, ?_, ?_, ?_⟩
  · cases a; cases b
    simp [OcspResponseStatus.as_raw]
  · cases p; cases q
    simp [OcspCertStatus.as_raw]
  · cases u; cases v
    simp [OcspRevokedStatus.as_raw]

/-- The boolean returned by the modelled `OCSP_check_validity`, spelled out
as a proposition. -/
theorem OCSP_check_validity_eq_true_iff (now tu nu nsec maxsec : Int) :
    OCSP_check_validity now tu nu nsec maxsec = true ↔
      (tu - nsec ≤ now ∧ now ≤ nu + nsec ∧
        (maxsec < 0 ∨ now - tu ≤ maxsec)) := by
  simp [OCSP_check_validity, and_assoc]

/-- C2: `check_validity` succeeds exactly when `this_update - nsec <= now`,
`now <= next_update + nsec`, and, whenever `maxsec` is `some m`,
`now - this_update <= m`; in every other case it returns
`TimeValidityError`. -/
theorem check_validity_ok_iff (now : Int) (s : Status) (nsec : Nat)
    (maxsec : Option Nat) :
    (Status.check_validity now s nsec maxsec = .ok () ↔
      (s.this_update - (nsec : Int) ≤ now ∧
        now ≤ s.next_update + (nsec : Int) ∧
        (match maxsec with
         | some m => now - s.this_update ≤ (m : Int)
         | none => True))) ∧
    (Status.check_validity now s nsec maxsec =
        .error SpecError.TimeValidityError ↔
      ¬(s.this_update - (nsec : Int) ≤ now ∧
        now ≤ s.next_update + (nsec : Int) ∧
        (match maxsec with
         | some m => now - s.this_update ≤ (m : Int)
         | none => True))) := by
  cases maxsec with
  | none =>
    have key : OCSP_check_validity now s.this_update s.next_update
        (nsec : Int) (-1) = true ↔
        (s.this_update - (nsec : Int) ≤ now ∧
          now ≤ s.next_update + (nsec : Int) ∧ True) := by
      rw [OCSP_check_validity_eq_true_iff]
      constructor
      · rintro ⟨h1, h2, _⟩
        exact ⟨h1, h2, trivial⟩
      · rintro ⟨h1, h2, _⟩
        exact ⟨h1, h2, Or.inl (by norm_num)⟩
    have heq : Status.check_validity now s nsec none =
        (if OCSP_check_validity now s.this_update s.next_update
            (nsec : Int) (-1)
         then Except.ok () else Except.error SpecError.TimeValidityError) :=
      rfl
    rw [heq]
    by_cases hb : OCSP_check_validity now s.this_update s.next_update
        (nsec : Int) (-1) = true
    · rw [if_pos hb]
      exact ⟨⟨fun _ => key.mp hb, fun _ => rfl⟩,
        ⟨fun h => absurd h (by simp), fun h => absurd (key.mp hb) h⟩⟩
    · rw [if_neg hb]
      have hc : ¬(s.this_update - (nsec : Int) ≤ now ∧
          now ≤ s.next_update + (nsec : Int) ∧ True) :=
        fun h => hb (key.mpr h)
      exact ⟨⟨fun h => absurd h (by simp), fun h => absurd h hc⟩,
        ⟨fun _ => hc, fun _ => rfl⟩⟩
  | some m =>
    have key : OCSP_check_validity now s.this_update s.next_update
        (nsec : Int) (m : Int) = true ↔
        (s.this_update - (nsec : Int) ≤ now ∧
          now ≤ s.next_update + (nsec : Int) ∧
          now - s.this_update ≤ (m : Int)) := by
      rw [OCSP_check_validity_eq_true_iff]
      omega
    have heq : Status.check_validity now s nsec (some m) =
        (if OCSP_check_validity now s.this_update s.next_update
            (nsec : Int) (m : Int)
         then Except.ok () else Except.error SpecError.TimeValidityError) :=
      rfl
    rw [heq]
    by_cases hb : OCSP_check_validity now s.this_update s.next_update
        (nsec : Int) (m : Int) = true
    · rw [if_pos hb]
      exact ⟨⟨fun _ => key.mp hb, fun _ => rfl⟩,
        ⟨fun h => absurd h (by simp), fun h => absurd (key.mp hb) h⟩⟩
    · rw [if_neg hb]
      have hc : ¬(s.this_update - (nsec : Int) ≤ now ∧
          now ≤ s.next_update + (nsec : Int) ∧
          now - s.this_update ≤ (m : Int)) :=
        fun h => hb (key.mpr h)
      exact ⟨⟨fun h => absurd h (by simp), fun h => absurd h hc⟩,
        ⟨fun _ => hc, fun _ => rfl⟩⟩

/-- C9: with `maxsec = None` the wrapper passes `-1` (unbounded) and no
maximum-age limit applies: any record meeting the skew-adjusted window
conditions validates, however old `this_update` is. -/
theorem check_validity_none_maxsec_unbounded (now : Int) (s : Status)
    (nsec : Nat) (h1 : s.this_update - (nsec : Int) ≤ now)
    (h2 : now ≤ s.next_update + (nsec : Int)) :
    Status.check_validity now s nsec none = .ok () := by
  have hb : OCSP_check_validity now s.this_update s.next_update (nsec : Int)
      (-1) = true := by
    rw [OCSP_check_validity_eq_true_iff]
    exact ⟨h1, h2, Or.inl (by norm_num)⟩
  simp [Status.check_validity, hb]

/-- Witness for C9: a record whose `this_update` lies a billion seconds in
the past still validates when `maxsec` is `none`. -/
theorem check_validity_none_maxsec_unbounded_witness :
    (sC9.this_update - ((0 : Nat) : Int) ≤ 0 ∧
      (0 : Int) ≤ sC9.next_update + ((0 : Nat) : Int)) ∧
    Status.check_validity 0 sC9 0 none = .ok () :=
  ⟨⟨by norm_num [sC9], by norm_num [sC9]⟩,
    check_validity_none_maxsec_unbounded 0 sC9 0
      (by norm_num [sC9]) (by norm_num [sC9])⟩

/-- C8: `add_id` appends the identifier, wrapped as a new single-request
entry, at the end of the request: previously inserted entries are unchanged
(so insertion order is preserved and duplicates are permitted), and the
returned slot is the newly created one. The identifier itself is consumed by
the call (the Rust signature takes it by value and `mem::forget`s it). -/
theorem add_id_appends (req : OcspRequest) (id : OcspCertId) :
    (OcspRequestRef.add_id req id).1.entries = req.entries ++ [⟨id⟩] ∧
    (OcspRequestRef.add_id req id).2 = req.entries.length ∧
    (OcspRequestRef.add_id req id).1.entries.take req.entries.length =
      req.entries ∧
    (OcspRequestRef.add_id req id).1.entries[(OcspRequestRef.add_id req id).2]? =
      some ⟨id⟩ := by
  refine ⟨rfl, rfl, ?_, ?_⟩
  · show (req.entries ++ [OcspOneReq.mk id]).take req.entries.length =
      req.entries
    simp
  · show (req.entries ++ [OcspOneReq.mk id])[req.entries.length]? =
      some (OcspOneReq.mk id)
    simp

/-- C4: `basic()` succeeds, returning the envelope's body, exactly when the
status is successful and a body is present; otherwise it fails with
`StatusError`. `create` itself checks nothing (it stores status and body
verbatim), so this extraction is the only validation point of the
status/body coupling. -/
theorem basic_status_body_coupling (r : OcspResponse) :
    (∀ b, (OcspResponseRef.basic r = .ok b ↔
      (OcspResponseRef.status r = RESPONSE_STATUS_SUCCESSFUL ∧
        r.body = some b))) ∧
    (OcspResponseRef.basic r = .error SpecError.StatusError ↔
      (OcspResponseRef.status r ≠ RESPONSE_STATUS_SUCCESSFUL ∨
        r.body = none)) ∧
    (∀ st body, OcspResponse.create st body = ⟨st, body⟩) := by
  rcases r with ⟨st, body⟩
  refine ⟨?_, ?_, fun _ _ => rfl⟩ <;>
    by_cases h : st = RESPONSE_STATUS_SUCCESSFUL <;>
    cases body <;>
    simp [OcspResponseRef.basic, OcspResponseRef.status, h]

/-- The linear search of the embedded entries coincides with the spec's own
first-match recursion. -/
theorem find_eq_specFirstMatch (id : OcspCertId) (l : List OcspSingleResp) :
    l.find? (fun e => decide (e.certId = id)) = specFirstMatch l id := by
  induction l with
  | nil => rfl
  | cons e rest ih =>
    by_cases h : e.certId = id
    · simp [List.find?, specFirstMatch, h]
    · simp [List.find?, specFirstMatch, h, ih]

/-- `find_status` is the first-match recursion followed by the wrapper's
record construction. -/
theorem find_status_eq (br : OcspBasicResponse) (id : OcspCertId) :
    OcspBasicResponseRef.find_status br id =
      (specFirstMatch br.entries id).map statusOfEntry := by
  unfold OcspBasicResponseRef.find_status OCSP_resp_find_status
  rw [find_eq_specFirstMatch]
  cases h : specFirstMatch br.entries id with
  | none => rfl
  | some e =>
    rcases e with ⟨cid, cst, tu, nu⟩
    cases cst <;> rfl

/-- `specFirstMatch` misses exactly when no entry matches. -/
theorem specFirstMatch_eq_none_iff (id : OcspCertId)
    (l : List OcspSingleResp) :
    specFirstMatch l id = none ↔ ∀ e ∈ l, e.certId ≠ id := by
  induction l with
  | nil => simp [specFirstMatch]
  | cons e rest ih =>
    by_cases h : e.certId = id <;> simp [specFirstMatch, h, ih]

/-- C3: `find_status` is a linear search comparing the embedded identifier
to `id` by value equality; it deterministically returns the record built
from the first matching entry in insertion order (duplicates included), and
`none` exactly when no entry matches. -/
theorem find_status_linear_search (br : OcspBasicResponse)
    (id : OcspCertId) :
    OcspBasicResponseRef.find_status br id =
      (specFirstMatch br.entries id).map statusOfEntry ∧
    (OcspBasicResponseRef.find_status br id = none ↔
      ∀ e ∈ br.entries, e.certId ≠ id) := by
  refine ⟨find_status_eq br id, ?_⟩
  rw [find_status_eq br id, Option.map_eq_none']
  exact specFirstMatch_eq_none_iff id br.entries

/-- C5: a record returned by `find_status` carries a revocation time exactly
when its status is `CERT_STATUS_REVOKED`; for a good or unknown status the
revocation time is absent. -/
theorem find_status_revocation_time_inv (br : OcspBasicResponse)
    (id : OcspCertId) (s : Status)
    (h : OcspBasicResponseRef.find_status br id = some s) :
    (s.revocation_time.isSome ↔ s.status = CERT_STATUS_REVOKED) ∧
    ((s.status = CERT_STATUS_GOOD ∨ s.status = CERT_STATUS_UNKNOWN) →
      s.revocation_time = none) := by
  rw [find_status_eq br id] at h
  cases hm : specFirstMatch br.entries id with
  | none => rw [hm] at h; simp at h
  | some e =>
    rw [hm] at h
    simp only [Option.map_some', Option.some.injEq] at h
    subst h
    rcases e with ⟨cid, cst, tu, nu⟩
    cases cst <;>
      simp [statusOfEntry, CERT_STATUS_REVOKED, CERT_STATUS_GOOD,
        CERT_STATUS_UNKNOWN, V_OCSP_CERTSTATUS_GOOD, V_OCSP_CERTSTATUS_REVOKED,
        V_OCSP_CERTSTATUS_UNKNOWN]

/-- Witness for C5: on a response with one revoked entry, `find_status`
returns a record for which the invariant holds. -/
theorem find_status_revocation_time_inv_witness :
    OcspBasicResponseRef.find_status brC5 cidC5 = some sC5 ∧
    ((sC5.revocation_time.isSome ↔ sC5.status = CERT_STATUS_REVOKED) ∧
      ((sC5.status = CERT_STATUS_GOOD ∨ sC5.status = CERT_STATUS_UNKNOWN) →
        sC5.revocation_time = none)) :=
  ⟨by decide, find_status_revocation_time_inv brC5 cidC5 sC5 (by decide)⟩

/-- C1: evaluating the code on a response whose sole entry is revoked with
revocation-reason `SUPERSEDED` (code 4): the underlying signed entry (as
reported by the modelled C search) carries reason 4, yet the record returned
by `find_status` has `reason` equal to the certificate-status code 1 — the
wrapper duplicates the status code into the `reason` field instead of using
the entry's revocation-reason field. -/
theorem find_status_reason_copies_status :
    (OCSP_resp_find_status brC1 cidC1).map (fun t => t.2.1) =
      some OCSP_REVOKED_STATUS_SUPERSEDED ∧
    (OcspBasicResponseRef.find_status brC1 cidC1).map Status.reason =
      some (OcspRevokedStatus.from_raw V_OCSP_CERTSTATUS_REVOKED) ∧
    OcspRevokedStatus.from_raw V_OCSP_CERTSTATUS_REVOKED ≠
      OcspRevokedStatus.from_raw OCSP_REVOKED_STATUS_SUPERSEDED := by
  refine ⟨by decide, by decide, by decide⟩

/-- C7: `verify` returns success only if a signer certificate is located
(in `certs` or, subject to flags, embedded in the response), that signer's
key authenticates the signature over the signed body, and, unless chain
verification is suppressed by flags, the signer's root is trusted by the
store; moreover, tampering with any byte of the signed body of a response
that verified makes `verify` fail with `VerificationError`. -/
theorem verify_requires_signature_and_trust (br : OcspBasicResponse)
    (certs : List X509) (store : List Nat) (flags : Flag)
    (h : OcspBasicResponseRef.verify br certs store flags = .ok ()) :
    (∃ signer, findSigner br certs flags = some signer ∧
      br.signature = sign signer.key br.signedBody ∧
      (flags.no_verify = false → store.contains signer.issuerRoot = true)) ∧
    (∀ body2, body2 ≠ br.signedBody →
      OcspBasicResponseRef.verify { br with signedBody := body2 } certs store
        flags = .error SpecError.VerificationError) := by
  have hb : OCSP_basic_verify br certs store flags = true := by
    by_contra hc
    rw [OcspBasicResponseRef.verify, if_neg hc] at h
    exact absurd h (by simp)
  rw [OCSP_basic_verify] at hb
  cases hs : findSigner br certs flags with
  | none => rw [hs] at hb; simp at hb
  | some signer =>
    rw [hs] at hb
    simp only [Bool.and_eq_true, Bool.or_eq_true, decide_eq_true_eq] at hb
    obtain ⟨hsig, htrust⟩ := hb
    constructor
    · refine ⟨signer, rfl, hsig, fun hnv => ?_⟩
      rcases htrust with h1 | h1
      · rw [hnv] at h1
        exact absurd h1 (by simp)
      · exact h1
    · intro body2 hne
      have hs2 : findSigner { br with signedBody := body2 } certs flags =
          some signer := hs
      have hneq : ({ br with signedBody := body2 } :
          OcspBasicResponse).signature ≠
          sign signer.key ({ br with signedBody := body2 } :
            OcspBasicResponse).signedBody := by
        show br.signature ≠ sign signer.key body2
        rw [hsig, sign, sign]
        intro hh
        exact hne (List.cons.inj hh).2.symm
      have hver : OCSP_basic_verify { br with signedBody := body2 } certs
          store flags = false := by
        rw [OCSP_basic_verify, hs2]
        simp [hneq]
      rw [OcspBasicResponseRef.verify, hver]
      simp

/-- Witness for C7: a response correctly signed by a certificate in `certs`
whose root 42 is in the store verifies, and the theorem's conclusion holds
at that instance. -/
theorem verify_requires_signature_and_trust_witness :
    OcspBasicResponseRef.verify brC7 [certC7] [42] flagsC7 = .ok () ∧
    ((∃ signer, findSigner brC7 [certC7] flagsC7 = some signer ∧
      brC7.signature = sign signer.key brC7.signedBody ∧
      (flagsC7.no_verify = false →
        List.contains [42] signer.issuerRoot = true)) ∧
    (∀ body2, body2 ≠ brC7.signedBody ->
      OcspBasicResponseRef.verify { brC7 with signedBody := body2 } [certC7]
        [42] flagsC7 = .error SpecError.VerificationError)) :=
  ⟨by decide,
    verify_requires_signature_and_trust brC7 [certC7] [42] flagsC7 (by decide)⟩

/-- Decoding inverts encoding for one number, with any remainder. -/
theorem decNat_enc (n : Nat) (r : List Nat) :
    decNat (encNat n ++ r) = some (n, r) := rfl

/-- Decoding inverts encoding for a signed value. -/
theorem decInt_enc (i : Int) (r : List Nat) :
    decInt (encInt i ++ r) = some (i, r) := by
  rcases lt_or_le i 0 with h | h
  · rw [encInt, if_pos h]
    show decInt (1 :: (-i).toNat :: r) = some (i, r)
    rw [decInt]
    norm_num
    omega
  · rw [encInt, if_neg (not_lt.mpr h)]
    show decInt (0 :: i.toNat :: r) = some (i, r)
    rw [decInt]
    norm_num
    omega

/-- Decoding inverts encoding for a fixed count of elements. -/
theorem decListN_enc {α : Type} (dec : List Nat → Option (α × List Nat))
    (enc : α → List Nat) (H : ∀ x r, dec (enc x ++ r) = some (x, r)) :
    ∀ (xs : List α) (r : List Nat),
      decListN dec xs.length ((xs.map enc).flatten ++ r) = some (xs, r) := by
  intro xs
  induction xs with
  | nil =>
    intro r
    simp [decListN]
  | cons x xs ih =>
    intro r
    simp only [List.map_cons, List.flatten_cons, List.length_cons,
      List.append_assoc]
    rw [decListN]
    simp only [H, ih]

/-- Decoding inverts encoding for a counted sequence. -/
theorem decList_enc {α : Type} (dec : List Nat → Option (α × List Nat))
    (enc : α → List Nat) (H : ∀ x r, dec (enc x ++ r) = some (x, r))
    (xs : List α) (r : List Nat) :
    decList dec (encList enc xs ++ r) = some (xs, r) := by
  show decList dec (xs.length :: ((xs.map enc).flatten ++ r)) = some (xs, r)
  rw [decList]
  exact decListN_enc dec enc H xs r

/-- Decoding inverts encoding for an optional value. -/
theorem decOption_enc {α : Type} (dec : List Nat → Option (α × List Nat))
    (enc : α → List Nat) (H : ∀ x r, dec (enc x ++ r) = some (x, r))
    (x : Option α) (r : List Nat) :
    decOption dec (encOption enc x ++ r) = some (x, r) := by
  cases x with
  | none => rfl
  | some v =>
    show decOption dec (1 :: (enc v ++ r)) = some (some v, r)
    rw [decOption]
    norm_num
    rw [H v r]

/-- Decoding inverts encoding for a certificate identifier. -/
theorem decCertId_enc (c : OcspCertId) (r : List Nat) :
    decCertId (encCertId c ++ r) = some (c, r) := by
  rcases c with ⟨h, inh, ikh, sn⟩
  simp only [encCertId, List.append_assoc, decCertId, decNat_enc,
    decList_enc decNat encNat decNat_enc]

/-- Decoding inverts encoding for the certificate-status CHOICE. -/
theorem decSingleStatus_enc (st : SingleStatus) (r : List Nat) :
    decSingleStatus (encSingleStatus st ++ r) = some (st, r) := by
  cases st with
  | good => rfl
  | unknown => rfl
  | revoked t rs =>
    show decSingleStatus (1 :: (encInt t ++ encInt rs ++ r)) =
      some (SingleStatus.revoked t rs, r)
    rw [decSingleStatus]
    norm_num
    simp only [List.append_assoc, decInt_enc]

/-- Decoding inverts encoding for a status entry. -/
theorem decSingleResp_enc (e : OcspSingleResp) (r : List Nat) :
    decSingleResp (encSingleResp e ++ r) = some (e, r) := by
  rcases e with ⟨cid, st, tu, nu⟩
  simp only [encSingleResp, List.append_assoc, decSingleResp, decCertId_enc,
    decSingleStatus_enc, decInt_enc]

/-- Decoding inverts encoding for a certificate. -/
theorem decX509_enc (c : X509) (r : List Nat) :
    decX509 (encX509 c ++ r) = some (c, r) := by
  rcases c with ⟨i, k, rt⟩
  rfl

/-- Decoding inverts encoding for a basic response. -/
theorem decBasicResp_enc (b : OcspBasicResponse) (r : List Nat) :
    decBasicResp (encBasicResp b ++ r) = some (b, r) := by
  rcases b with ⟨es, rid, sb, sg, cs⟩
  simp only [encBasicResp, List.append_assoc, decBasicResp,
    decList_enc decSingleResp encSingleResp decSingleResp_enc, decNat_enc,
    decList_enc decNat encNat decNat_enc,
    decList_enc decX509 encX509 decX509_enc]

/-- Decoding inverts encoding for a single-request entry. -/
theorem decOneReq_enc (e : OcspOneReq) (r : List Nat) :
    decOneReq (encOneReq e ++ r) = some (e, r) := by
  rcases e with ⟨cid⟩
  rw [decOneReq]
  show (match decCertId (encCertId cid ++ r) with
    | none => none
    | some (cid, bs) => some (⟨cid⟩, bs)) = some (OcspOneReq.mk cid, r)
  rw [decCertId_enc]

/-- C6: decoding the wire bytes produced by encoding yields the original
value, both for requests and for response envelopes, in all observable
fields. -/
theorem der_roundtrip (req : OcspRequest) (resp : OcspResponse) :
    OcspRequest.from_der (OcspRequestRef.to_der req) = .ok req ∧
    OcspResponse.from_der (OcspResponseRef.to_der resp) = .ok resp := by
  constructor
  · rcases req with ⟨es⟩
    have h := decList_enc decOneReq encOneReq decOneReq_enc es []
    rw [List.append_nil] at h
    simp only [OcspRequest.from_der, OcspRequestRef.to_der, h]
  · rcases resp with ⟨⟨st⟩, b⟩
    have h2 := decOption_enc decBasicResp encBasicResp decBasicResp_enc b []
    rw [List.append_nil] at h2
    simp only [OcspResponse.from_der, OcspResponseRef.to_der, decInt_enc, h2]

end Ocsp
